import Mathlib

/-!
Shallow embedding of `src/lib/model/user_allowance.js` (UserAllowance class).

Time is modelled the way moment.js represents UTC instants: an integer count
of milliseconds since the Unix epoch.  The calendar operations the code uses
(`.year()`, `.startOf('year')`, `.endOf('year')`, `.diff(other, 'days')`) are
embedded exactly:

* the proleptic Gregorian year of an instant is computed from its day number
  with the standard civil-calendar conversion,
* `startOf('year')` is midnight Jan 1 of the instant's year,
* `endOf('year')` is one millisecond before midnight Jan 1 of the next year
  (moment sets 23:59:59.999),
* `diff(other, 'days')` divides the millisecond difference by 86400000 and
  truncates toward zero (moment's absFloor).

JavaScript numbers are embedded as exact rationals; `Math.round x` is
`Int.floor (x + 1/2)` (JavaScript rounds halves toward positive infinity).
The one place the source can produce a non-finite number (the division by
`days_in_period` in `accrued_adjustment`) is embedded as an `Option` that is
`none` exactly when the divisor is zero.
-/

namespace UserAllowanceModel

/-- Milliseconds per day, the unit moment.js uses for day differences. -/
def msPerDay : Int := 86400000

/-- Day number (days since 1970-01-01) of a Gregorian calendar date,
Hinnant's civil-from-days algorithm run in reverse. -/
def days_from_civil (y m d : Int) : Int :=
  let y' := y - (if m ≤ 2 then 1 else 0)
  let era := Int.fdiv y' 400
  let yoe := y' - era * 400
  let doy := Int.fdiv (153 * (m + (if 2 < m then -3 else 9)) + 2) 5 + d - 1
  let doe := yoe * 365 + Int.fdiv yoe 4 - Int.fdiv yoe 100 + doy
  era * 146097 + doe - 719468

/-- Gregorian calendar year of a day number (days since 1970-01-01),
Hinnant's civil-from-days algorithm, keeping only the year. -/
def civil_year_from_days (z : Int) : Int :=
  let z' := z + 719468
  let era := Int.fdiv z' 146097
  let doe := z' - era * 146097
  let yoe := Int.fdiv (doe - Int.fdiv doe 1460 + Int.fdiv doe 36524 - Int.fdiv doe 146096) 365
  let y := yoe + era * 400
  let doy := doe - (365 * yoe + Int.fdiv yoe 4 - Int.fdiv yoe 100)
  let mp := Int.fdiv (5 * doy + 2) 153
  let m := mp + (if mp < 10 then 3 else -9)
  y + (if m ≤ 2 then 1 else 0)

/-- The UTC instant (ms since epoch) of midnight on a given calendar date;
models moment.utc of a plain date. -/
def utcMs (y m d : Int) : Int := msPerDay * days_from_civil y m d

/-- moment's year getter on an instant. -/
def yearOf (t : Int) : Int := civil_year_from_days (Int.fdiv t msPerDay)

/-- moment's startOf year: midnight Jan 1 of the instant's year. -/
def startOfYear (t : Int) : Int := utcMs (yearOf t) 1 1

/-- moment's endOf year: 23:59:59.999 Dec 31, i.e. one ms before next Jan 1. -/
def endOfYear (t : Int) : Int := utcMs (yearOf t + 1) 1 1 - 1

/-- moment's diff in days: millisecond difference divided by 86400000,
truncated toward zero (moment's absFloor). -/
def diffDays (a b : Int) : Int := Int.tdiv (a - b) msPerDay

/-- JavaScript Math.round: halves round toward positive infinity. -/
def jsRound (q : ℚ) : Int := Int.floor (q + 1 / 2)

/-- Department fields the class reads: nominal allowance and the accrual flag. -/
structure Department where
  allowance : ℚ
  is_accrued_allowance : Bool
deriving DecidableEq

/-- Employee record shape consumed by the class: start_date, optional
end_date, department, and the optionally-loaded realized-leave data
(my_leaves; none models the JavaScript undefined). -/
structure User where
  start_date : Int
  end_date : Option Int
  department : Department
  my_leaves : Option Unit
deriving DecidableEq

/-- The validated snapshot held by a constructed UserAllowance instance. -/
structure UserAllowance where
  user : User
  number_of_days_taken_from_allowance : ℚ
  manual_adjustment : ℚ
  carry_over : ℚ
  nominal_allowance : ℚ
  now : Int
deriving DecidableEq

/-- Getter is_accrued_allowance: the department flag coerced to boolean. -/
def UserAllowance.is_accrued_allowance (ua : UserAllowance) : Bool :=
  ua.user.department.is_accrued_allowance

/-- The boolean subcondition of the early-return guard of
employement_range_adjustment: no end_date, or end_date's year after now's. -/
def endAfterNowYear (u : User) (now : Int) : Bool :=
  match u.end_date with
  | none => true
  | some ed => decide (yearOf now < yearOf ed)

/-- The early-return guard of employement_range_adjustment: now's year
differs from the start year and employment does not end by now's year. -/
def spansFullYear (u : User) (now : Int) : Bool :=
  decide (yearOf now ≠ yearOf u.start_date) && endAfterNowYear u now

/-- Effective window start: start_date when it falls in now's year,
otherwise Jan 1 of now's year. -/
def effectiveStart (u : User) (now : Int) : Int :=
  if yearOf u.start_date = yearOf now then u.start_date else startOfYear now

/-- Effective window end: end_date when present with year at most now's,
otherwise Dec 31 (end of year) of now's year. -/
def effectiveEnd (u : User) (now : Int) : Int :=
  match u.end_date with
  | some ed => if yearOf ed ≤ yearOf now then ed else endOfYear now
  | none => endOfYear now

/-- Getter employement_range_adjustment (spelling as in the source). -/
def UserAllowance.employement_range_adjustment (ua : UserAllowance) : ℚ :=
  if spansFullYear ua.user ua.now then 0
  else
    let s := effectiveStart ua.user ua.now
    let e := effectiveEnd ua.user ua.now;
    -(ua.nominal_allowance -
      (jsRound (ua.nominal_allowance * (diffDays e s : ℚ) / 365) : ℚ))

/-- Getter total_number_of_days_in_allowance. -/
def UserAllowance.total_number_of_days_in_allowance (ua : UserAllowance) : ℚ :=
  ua.nominal_allowance + ua.carry_over + ua.manual_adjustment +
    ua.employement_range_adjustment

/-- Getter accrued_adjustment.  The source divides by days_in_period with no
guard; when that span is zero the JavaScript result is NaN or an infinity
(never a finite number), embedded here as none. -/
def UserAllowance.accrued_adjustment (ua : UserAllowance) : Option ℚ :=
  let allowance := ua.nominal_allowance + ua.manual_adjustment +
    ua.employement_range_adjustment
  let period_starts_at := effectiveStart ua.user ua.now
  let period_ends_at := effectiveEnd ua.user ua.now
  let days_in_period := diffDays period_ends_at period_starts_at;
  if days_in_period = 0 then none
  else
    let delta := allowance * (diffDays period_ends_at ua.now : ℚ) /
      (days_in_period : ℚ);
    some (-((jsRound (delta * 2) : ℚ) / 2))

/-- Getter number_of_days_available_in_allowance.  When the department is
accrual-based the accrued adjustment participates, so a NaN accrued
adjustment (none) poisons this value too. -/
def UserAllowance.number_of_days_available_in_allowance (ua : UserAllowance) :
    Option ℚ :=
  if yearOf ua.now < yearOf ua.user.start_date then some 0
  else if ua.is_accrued_allowance then
    ua.accrued_adjustment.map (fun a =>
      ua.total_number_of_days_in_allowance -
        ua.number_of_days_taken_from_allowance + a)
  else
    some (ua.total_number_of_days_in_allowance -
      ua.number_of_days_taken_from_allowance)

/-! Constructor validation (Joi scheme_constructor).

The constructor runs Joi.attempt on its argument bag: user is a required
object, the four numeric fields are required numbers, now is an optional
moment defaulting to the current UTC instant.  Joi aborts at the first
failing key (schema key order) and reports a descriptive error naming the
failing parameter and whether it was missing or of the wrong type. -/

/-- A field of the raw argument bag as JavaScript sees it: absent,
present but not a number, or a number. -/
inductive JsValue where
  | missing
  | notNumber
  | number (q : ℚ)
deriving DecidableEq

/-- Whether a bag field holds a number. -/
def JsValue.isNumber : JsValue → Bool
  | .number _ => true
  | _ => false

/-- The raw argument bag handed to the UserAllowance constructor. -/
structure ConstructorArgs where
  user : Option User
  number_of_days_taken_from_allowance : JsValue
  manual_adjustment : JsValue
  carry_over : JsValue
  nominal_allowance : JsValue
  now : Option Int
deriving DecidableEq

/-- A Joi validation failure: the kind of violation together with the name
of the parameter that failed. -/
inductive ValidationError where
  | required (param : String)
  | notANumber (param : String)
deriving DecidableEq

/-- The parameter name a validation failure identifies. -/
def ValidationError.param : ValidationError → String
  | .required p => p
  | .notANumber p => p

/-- Joi number().required() on one key: missing and non-numeric values are
distinct failures carrying the key name. -/
def checkNumber (name : String) : JsValue → Except ValidationError ℚ
  | .missing => .error (.required name)
  | .notNumber => .error (.notANumber name)
  | .number q => .ok q

/-- The constructor of UserAllowance: Joi.attempt against
scheme_constructor, then field assignment.  current is the UTC instant that
the now default (moment.utc()) would produce.  Keys are checked in schema
order; the first failure aborts with no instance produced. -/
def scheme_constructor (current : Int) (a : ConstructorArgs) :
    Except ValidationError UserAllowance :=
  match a.user with
  | none => .error (.required "user")
  | some u =>
    match checkNumber "number_of_days_taken_from_allowance"
        a.number_of_days_taken_from_allowance with
    | .error e => .error e
    | .ok taken =>
      match checkNumber "manual_adjustment" a.manual_adjustment with
      | .error e => .error e
      | .ok manual =>
        match checkNumber "carry_over" a.carry_over with
        | .error e => .error e
        | .ok carry =>
          match checkNumber "nominal_allowance" a.nominal_allowance with
          | .error e => .error e
          | .ok nominal =>
            .ok ⟨u, taken, manual, carry, nominal, a.now.getD current⟩

/-- The parameters of the bag that violate scheme_constructor, in schema
key order. -/
def failing_params (a : ConstructorArgs) : List String :=
  (if a.user.isNone then ["user"] else []) ++
  (if a.number_of_days_taken_from_allowance.isNumber then []
    else ["number_of_days_taken_from_allowance"]) ++
  (if a.manual_adjustment.isNumber then [] else ["manual_adjustment"]) ++
  (if a.carry_over.isNumber then [] else ["carry_over"]) ++
  (if a.nominal_allowance.isNumber then [] else ["nominal_allowance"])

/-! Resolver (static promise_allowance).

The resolver validates its argument bag (year and now default to the
current UTC moment, forceNow to false), then runs a sequential promise
chain: conditionally reload leave details, fetch adjustment and carry-over,
compute days taken, and finally build the constructor argument bag.  The
data returned by the collaborators does not influence which steps run or
which evaluation instant is chosen, so the embedding records the executed
step sequence, the now value placed in the constructor bag (none when the
branch leaves it unset), and the final value of the caller's year moment,
which the source mutates in place via startOf. -/

/-- The sequential steps of the promise chain of promise_allowance. -/
inductive Step where
  | reload
  | promise_adjustment_and_carry_over
  | calculate_number_of_days_taken
  | construct
deriving DecidableEq

/-- The raw argument bag of promise_allowance: year, now and forceNow may
be absent (Joi fills defaults). -/
structure PromiseAllowanceArgs where
  user : User
  year : Option Int
  now : Option Int
  forceNow : Option Bool
deriving DecidableEq

/-- The observable outcome of one promise_allowance resolution. -/
structure ResolverOutcome where
  steps : List Step
  constructed_now : Option Int
  final_year : Int
deriving DecidableEq

/-- The promise chain assembled by promise_allowance: the reload step is
chained exactly when my_leaves is undefined, then the three unconditional
steps, in source order. -/
def resolver_steps (u : User) : List Step :=
  (if u.my_leaves = none then [Step.reload] else []) ++
    [Step.promise_adjustment_and_carry_over,
      Step.calculate_number_of_days_taken, Step.construct]

/-- Static promise_allowance.  current is the UTC instant moment.utc()
returns during this resolution (both for the Joi defaults of year and now
and for the current-year comparison).  After validation now is always a
moment, hence always truthy, so the forceNow and now JavaScript guard
reduces to forceNow; the second branch mutates the caller's year object in
place to the start of its year and passes that same object as now. -/
def promise_allowance (current : Int) (args : PromiseAllowanceArgs) :
    ResolverOutcome :=
  if args.forceNow.getD false then
    ⟨resolver_steps args.user, some (args.now.getD current), args.year.getD current⟩
  else if yearOf (args.year.getD current) ≠ yearOf current then
    ⟨resolver_steps args.user, some (startOfYear (args.year.getD current)),
      startOfYear (args.year.getD current)⟩
  else
    ⟨resolver_steps args.user, none, args.year.getD current⟩


/-! Concrete employee records and snapshots used by the theorems below.
Dates are written through utcMs, so utcMs 2017 7 1 is midnight UTC on
July 1 2017. -/

/-- Employee whose start and end date coincide (July 1 2017), in an
accrual-based department: the effective accrual period has zero span. -/
def c1_user : User := ⟨utcMs 2017 7 1, some (utcMs 2017 7 1), ⟨28, true⟩, some ()⟩

/-- Snapshot of c1_user evaluated on March 1 2017. -/
def c1_snapshot : UserAllowance := ⟨c1_user, 0, 0, 0, 28, utcMs 2017 3 1⟩

/-- Snapshot whose employee starts in 2020 while now lies in 2017. -/
def c2_snapshot : UserAllowance :=
  ⟨⟨utcMs 2020 2 1, none, ⟨28, false⟩, some ()⟩, 0, 0, 0, 28, utcMs 2017 3 1⟩

/-- Accrual-department employee, employed since 2016 with no end date,
nominal allowance 0. -/
def c3x_user : User := ⟨utcMs 2016 1 15, none, ⟨0, true⟩, some ()⟩

/-- Snapshot of c3x_user with manual_adjustment -10, now = Feb 1 2017. -/
def c3x_early : UserAllowance := ⟨c3x_user, 0, -10, 0, 0, utcMs 2017 2 1⟩

/-- Snapshot of c3x_user with manual_adjustment -10, now = Dec 1 2017. -/
def c3x_late : UserAllowance := ⟨c3x_user, 0, -10, 0, 0, utcMs 2017 12 1⟩

/-- Accrual-department employee, employed since 2016 with no end date,
nominal allowance 10. -/
def c3w_user : User := ⟨utcMs 2016 1 15, none, ⟨10, true⟩, some ()⟩

/-- Snapshot of c3w_user evaluated exactly at the effective period end,
23:59:59.999 on Dec 31 2017. -/
def c3w_end : UserAllowance := ⟨c3w_user, 0, 0, 0, 10, utcMs 2018 1 1 - 1⟩

/-- Snapshot of c3w_user with now = Feb 1 2017. -/
def c3w_early : UserAllowance := ⟨c3w_user, 0, 0, 0, 10, utcMs 2017 2 1⟩

/-- Snapshot of c3w_user with now = Dec 1 2017. -/
def c3w_late : UserAllowance := ⟨c3w_user, 0, 0, 0, 10, utcMs 2017 12 1⟩

/-- Snapshot of the C4 scenario: nominal allowance 28, start July 1 of the
evaluation year, no end date, now = Dec 31 of the same year. -/
def c4_snapshot : UserAllowance :=
  ⟨⟨utcMs 2017 7 1, none, ⟨28, false⟩, some ()⟩, 0, 0, 0, 28, utcMs 2017 12 31⟩

/-- Snapshot of an employee employed 2015 through 2030, evaluated in 2017:
employment fully spans the evaluation year. -/
def c5_snapshot : UserAllowance :=
  ⟨⟨utcMs 2015 4 20, some (utcMs 2030 6 1), ⟨25, false⟩, some ()⟩,
    0, 0, 0, 25, utcMs 2017 3 1⟩

/-- Snapshot of an employee employed since 2016 with no end date, 3 days
taken, no adjustments, non-accrual department, evaluated mid 2017. -/
def c6_snapshot : UserAllowance :=
  ⟨⟨utcMs 2016 9 1, none, ⟨28, false⟩, some ()⟩, 3, 0, 0, 28, utcMs 2017 6 15⟩

/-- Snapshot like c6_snapshot but with an end date in a later year (2030):
the employment still fully spans the 2017 evaluation year. -/
def c6_snapshot2 : UserAllowance :=
  ⟨⟨utcMs 2016 9 1, some (utcMs 2030 6 1), ⟨28, false⟩, some ()⟩,
    3, 0, 0, 28, utcMs 2017 6 15⟩

/-- Employee with leave data already loaded, used by the resolver claims. -/
def c7_user : User := ⟨utcMs 2016 1 15, none, ⟨28, false⟩, some ()⟩

/-- Resolver argument bag with forceNow true but no now supplied, and a
year (2017) that differs from the current year. -/
def c7_args : PromiseAllowanceArgs := ⟨c7_user, some (utcMs 2017 7 1), none, some true⟩

/-- Resolver argument bag with no forceNow and no now, year = 2017. -/
def c7w_args : PromiseAllowanceArgs := ⟨c7_user, some (utcMs 2017 7 1), none, none⟩

/-- The current UTC instant of the resolver runs below: May 15 2023. -/
def c7_current : Int := utcMs 2023 5 15

/-- Employee whose my_leaves is still undefined. -/
def c8_user : User := ⟨utcMs 2016 1 15, none, ⟨28, false⟩, none⟩

/-- Resolver argument bag for c8_user. -/
def c8_args : PromiseAllowanceArgs := ⟨c8_user, some (utcMs 2017 7 1), none, none⟩

/-- Resolver argument bag for the mutation claim: no forceNow, no now,
year = July 1 2017 (not already at a year start). -/
def c10_args : PromiseAllowanceArgs := ⟨c7_user, some (utcMs 2017 7 1), none, none⟩

/-- Constructor argument bag with two invalid numeric fields: days taken
missing and carry_over not a number. -/
def c9_bag : ConstructorArgs := ⟨some ⟨utcMs 2016 9 1, none, ⟨28, false⟩, some ()⟩,
  JsValue.missing, JsValue.number 0, JsValue.notNumber, JsValue.number 28, none⟩

/-! Helper lemmas. -/

lemma spansFullYear_true_iff (u : User) (now : Int) :
    spansFullYear u now = true ↔
      (yearOf now ≠ yearOf u.start_date ∧
        (u.end_date = none ∨ ∃ ed, u.end_date = some ed ∧ yearOf now < yearOf ed)) := by
  unfold spansFullYear endAfterNowYear
  cases h : u.end_date <;> simp [h]

lemma era_eq_zero_of_spans (ua : UserAllowance)
    (h : spansFullYear ua.user ua.now = true) :
    ua.employement_range_adjustment = 0 := by
  unfold UserAllowance.employement_range_adjustment
  rw [h]
  rfl

lemma startOfYear_congr {t1 t2 : Int} (h : yearOf t1 = yearOf t2) :
    startOfYear t1 = startOfYear t2 := by
  unfold startOfYear; rw [h]

lemma endOfYear_congr {t1 t2 : Int} (h : yearOf t1 = yearOf t2) :
    endOfYear t1 = endOfYear t2 := by
  unfold endOfYear; rw [h]

lemma effectiveStart_congr (u : User) {t1 t2 : Int} (h : yearOf t1 = yearOf t2) :
    effectiveStart u t1 = effectiveStart u t2 := by
  unfold effectiveStart; rw [h, startOfYear_congr h]

lemma effectiveEnd_congr (u : User) {t1 t2 : Int} (h : yearOf t1 = yearOf t2) :
    effectiveEnd u t1 = effectiveEnd u t2 := by
  unfold effectiveEnd
  cases u.end_date with
  | none => exact endOfYear_congr h
  | some ed => rw [h, endOfYear_congr h]

lemma spansFullYear_congr (u : User) {t1 t2 : Int} (h : yearOf t1 = yearOf t2) :
    spansFullYear u t1 = spansFullYear u t2 := by
  unfold spansFullYear endAfterNowYear
  rw [h]

lemma tdiv_le_tdiv_right {a b c : Int} (hc : 0 < c) (h : a ≤ b) :
    a.tdiv c ≤ b.tdiv c := by
  rcases le_or_lt 0 a with ha | ha
  · rw [Int.tdiv_eq_ediv ha hc.le, Int.tdiv_eq_ediv (ha.trans h) hc.le]
    exact Int.ediv_le_ediv hc h
  · rcases le_or_lt 0 b with hb | hb
    · have h1 : a.tdiv c ≤ 0 := by
        have h2 : 0 ≤ (-a).tdiv c := Int.tdiv_nonneg (by omega) hc.le
        rw [Int.neg_tdiv] at h2
        omega
      have h3 : 0 ≤ b.tdiv c := Int.tdiv_nonneg hb hc.le
      omega
    · have h4 : (-b).tdiv c ≤ (-a).tdiv c := by
        rw [Int.tdiv_eq_ediv (by omega) hc.le, Int.tdiv_eq_ediv (by omega) hc.le]
        exact Int.ediv_le_ediv hc (by omega)
      rw [Int.neg_tdiv, Int.neg_tdiv] at h4
      omega

lemma diffDays_le_diffDays (e : Int) {t1 t2 : Int} (h : t1 ≤ t2) :
    diffDays e t2 ≤ diffDays e t1 := by
  unfold diffDays
  exact tdiv_le_tdiv_right (by unfold msPerDay; omega) (by omega)

lemma jsRound_mono {x y : ℚ} (h : x ≤ y) : jsRound x ≤ jsRound y := by
  unfold jsRound
  exact Int.floor_le_floor (by linarith)

lemma accrued_adjustment_at_period_end (ua : UserAllowance)
    (hend : ua.now = effectiveEnd ua.user ua.now)
    (hdays : diffDays (effectiveEnd ua.user ua.now)
      (effectiveStart ua.user ua.now) ≠ 0) :
    ua.accrued_adjustment = some 0 := by
  have hzero : diffDays (effectiveEnd ua.user ua.now) ua.now = 0 := by
    rw [← hend]
    unfold diffDays
    simp [Int.zero_tdiv]
  simp only [UserAllowance.accrued_adjustment]
  rw [if_neg hdays, hzero]
  norm_num [jsRound]

lemma accrued_adjustment_monotone (ua1 ua2 : UserAllowance)
    (hu : ua1.user = ua2.user)
    (hnom : ua1.nominal_allowance = ua2.nominal_allowance)
    (hman : ua1.manual_adjustment = ua2.manual_adjustment)
    (hy : yearOf ua1.now = yearOf ua2.now)
    (hle : ua1.now ≤ ua2.now)
    (hA : 0 ≤ ua1.nominal_allowance + ua1.manual_adjustment +
      ua1.employement_range_adjustment)
    (hdays : 0 < diffDays (effectiveEnd ua1.user ua1.now)
      (effectiveStart ua1.user ua1.now)) :
    ∀ q1 q2, ua1.accrued_adjustment = some q1 →
      ua2.accrued_adjustment = some q2 → q1 ≤ q2 := by
  intro q1 q2 h1 h2
  have hs : effectiveStart ua2.user ua2.now = effectiveStart ua1.user ua1.now := by
    rw [← hu]; exact effectiveStart_congr ua1.user hy.symm
  have he : effectiveEnd ua2.user ua2.now = effectiveEnd ua1.user ua1.now := by
    rw [← hu]; exact effectiveEnd_congr ua1.user hy.symm
  have hera : ua2.employement_range_adjustment = ua1.employement_range_adjustment := by
    unfold UserAllowance.employement_range_adjustment
    rw [← hu, ← hnom, spansFullYear_congr ua1.user hy.symm,
      effectiveStart_congr ua1.user hy.symm, effectiveEnd_congr ua1.user hy.symm]
  simp only [UserAllowance.accrued_adjustment] at h1 h2
  rw [if_neg (by omega)] at h1
  rw [hs, he, hera, ← hnom, ← hman, if_neg (by omega)] at h2
  obtain rfl := Option.some.inj h1
  obtain rfl := Option.some.inj h2
  have hd : diffDays (effectiveEnd ua1.user ua1.now) ua2.now ≤
      diffDays (effectiveEnd ua1.user ua1.now) ua1.now :=
    diffDays_le_diffDays _ hle
  have hdaysq : (0 : ℚ) < (diffDays (effectiveEnd ua1.user ua1.now)
      (effectiveStart ua1.user ua1.now) : ℚ) := by exact_mod_cast hdays
  have hnum : (ua1.nominal_allowance + ua1.manual_adjustment +
        ua1.employement_range_adjustment) *
        (diffDays (effectiveEnd ua1.user ua1.now) ua2.now : ℚ) ≤
      (ua1.nominal_allowance + ua1.manual_adjustment +
        ua1.employement_range_adjustment) *
        (diffDays (effectiveEnd ua1.user ua1.now) ua1.now : ℚ) :=
    mul_le_mul_of_nonneg_left (by exact_mod_cast hd) hA
  have hdelta := (div_le_div_iff_of_pos_right hdaysq).mpr hnum
  have hr := jsRound_mono (by linarith :
    (ua1.nominal_allowance + ua1.manual_adjustment +
        ua1.employement_range_adjustment) *
        (diffDays (effectiveEnd ua1.user ua1.now) ua2.now : ℚ) /
        (diffDays (effectiveEnd ua1.user ua1.now)
          (effectiveStart ua1.user ua1.now) : ℚ) * 2 ≤
      (ua1.nominal_allowance + ua1.manual_adjustment +
        ua1.employement_range_adjustment) *
        (diffDays (effectiveEnd ua1.user ua1.now) ua1.now : ℚ) /
        (diffDays (effectiveEnd ua1.user ua1.now)
          (effectiveStart ua1.user ua1.now) : ℚ) * 2)
  have hrq : ((jsRound ((ua1.nominal_allowance + ua1.manual_adjustment +
        ua1.employement_range_adjustment) *
        (diffDays (effectiveEnd ua1.user ua1.now) ua2.now : ℚ) /
        (diffDays (effectiveEnd ua1.user ua1.now)
          (effectiveStart ua1.user ua1.now) : ℚ) * 2) : Int) : ℚ) ≤
      ((jsRound ((ua1.nominal_allowance + ua1.manual_adjustment +
        ua1.employement_range_adjustment) *
        (diffDays (effectiveEnd ua1.user ua1.now) ua1.now : ℚ) /
        (diffDays (effectiveEnd ua1.user ua1.now)
          (effectiveStart ua1.user ua1.now) : ℚ) * 2) : Int) : ℚ) := by
    exact_mod_cast hr
  linarith

/-! Claim theorems. -/

/-- C1: the spec requires that a zero-span accrual period yield a
documented explicit fallback value from accrued_adjustment.  The source has
no guard: with start_date = end_date the divisor days_in_period is 0 and
the JavaScript arithmetic produces NaN (or an infinity), never a finite
number, so accrued_adjustment — and with it
number_of_days_available_in_allowance — yields no number at all on the
failing input. -/
theorem C1_zero_span_no_number :
    diffDays (effectiveEnd c1_snapshot.user c1_snapshot.now)
        (effectiveStart c1_snapshot.user c1_snapshot.now) = 0 ∧
      c1_snapshot.accrued_adjustment = none ∧
      c1_snapshot.number_of_days_available_in_allowance = none := by
  refine ⟨by decide, ?_, ?_⟩ <;> decide

/-- C2: whenever the employee's start-date year is strictly greater than
the year of the snapshot's now, number_of_days_available_in_allowance
returns 0. -/
theorem C2_not_started_yet (ua : UserAllowance)
    (h : yearOf ua.now < yearOf ua.user.start_date) :
    ua.number_of_days_available_in_allowance = some 0 := by
  unfold UserAllowance.number_of_days_available_in_allowance
  rw [if_pos h]

/-- C2 witness: concrete snapshot with start year 2020 and now in 2017. -/
theorem C2_witness :
    yearOf c2_snapshot.now < yearOf c2_snapshot.user.start_date ∧
      c2_snapshot.number_of_days_available_in_allowance = some 0 :=
  ⟨by decide, C2_not_started_yet c2_snapshot (by decide)⟩

/-- C3 counterexample: two accrual snapshots identical except for now
(both within the effective period of 2017), with effective allowance
negative (manual_adjustment = -10): the earlier snapshot (Feb 1) has
accrued_adjustment 9, the later one (Dec 1) has 1, so the earlier value is
not less than or equal to the later one — the claimed monotonicity fails
as stated. -/
theorem C3_counterexample :
    c3x_early.user = c3x_late.user ∧
      c3x_early.user.department.is_accrued_allowance = true ∧
      c3x_early.nominal_allowance = c3x_late.nominal_allowance ∧
      c3x_early.manual_adjustment = c3x_late.manual_adjustment ∧
      c3x_early.carry_over = c3x_late.carry_over ∧
      c3x_early.number_of_days_taken_from_allowance =
        c3x_late.number_of_days_taken_from_allowance ∧
      c3x_early.now ≤ c3x_late.now ∧
      effectiveStart c3x_early.user c3x_early.now ≤ c3x_early.now ∧
      c3x_late.now ≤ effectiveEnd c3x_late.user c3x_late.now ∧
      c3x_early.accrued_adjustment = some 9 ∧
      c3x_late.accrued_adjustment = some 1 ∧
      ¬ ((9 : ℚ) ≤ 1) := by
  have hera_e : c3x_early.employement_range_adjustment = 0 :=
    era_eq_zero_of_spans _ (by decide)
  have hera_l : c3x_late.employement_range_adjustment = 0 :=
    era_eq_zero_of_spans _ (by decide)
  have he : c3x_early.accrued_adjustment = some 9 := by
    have hdays : diffDays (effectiveEnd c3x_early.user c3x_early.now)
        (effectiveStart c3x_early.user c3x_early.now) = 364 := by decide
    have hd : diffDays (effectiveEnd c3x_early.user c3x_early.now)
        c3x_early.now = 333 := by decide
    simp only [UserAllowance.accrued_adjustment]
    rw [hdays, hd, hera_e]
    norm_num [c3x_early, c3x_user, jsRound]
  have hl : c3x_late.accrued_adjustment = some 1 := by
    have hdays : diffDays (effectiveEnd c3x_late.user c3x_late.now)
        (effectiveStart c3x_late.user c3x_late.now) = 364 := by decide
    have hd : diffDays (effectiveEnd c3x_late.user c3x_late.now)
        c3x_late.now = 30 := by decide
    simp only [UserAllowance.accrued_adjustment]
    rw [hdays, hd, hera_l]
    norm_num [c3x_late, c3x_user, jsRound]
  exact ⟨rfl, rfl, rfl, rfl, rfl, rfl, by decide, by decide, by decide,
    he, hl, by norm_num⟩

/-- C3 amended: when the effective accrual period has nonzero span,
accrued_adjustment is some 0 if now equals the effective period end; and
for two snapshots identical except for now (same user, nominal allowance
and manual adjustment, nows in the same calendar year) with NONNEGATIVE
effective allowance (nominal + manual + employment range adjustment) and
positive period span, the snapshot with the earlier now has an
accrued_adjustment less than or equal to the later one's. -/
theorem C3_accrual_zero_at_end_and_monotone :
    (∀ ua : UserAllowance, ua.now = effectiveEnd ua.user ua.now →
      diffDays (effectiveEnd ua.user ua.now) (effectiveStart ua.user ua.now) ≠ 0 →
      ua.accrued_adjustment = some 0) ∧
    (∀ ua1 ua2 : UserAllowance, ua1.user = ua2.user →
      ua1.nominal_allowance = ua2.nominal_allowance →
      ua1.manual_adjustment = ua2.manual_adjustment →
      yearOf ua1.now = yearOf ua2.now → ua1.now ≤ ua2.now →
      0 ≤ ua1.nominal_allowance + ua1.manual_adjustment +
        ua1.employement_range_adjustment →
      0 < diffDays (effectiveEnd ua1.user ua1.now)
        (effectiveStart ua1.user ua1.now) →
      ∀ q1 q2, ua1.accrued_adjustment = some q1 →
        ua2.accrued_adjustment = some q2 → q1 ≤ q2) :=
  ⟨accrued_adjustment_at_period_end, accrued_adjustment_monotone⟩

/-- C3 witness: at the period end the adjustment is some 0, and for a
nonnegative allowance the Feb 1 snapshot's adjustment (-9) is below the
Dec 1 snapshot's (-1). -/
theorem C3_amended_witness :
    c3w_end.now = effectiveEnd c3w_end.user c3w_end.now ∧
      c3w_end.accrued_adjustment = some 0 ∧
      c3w_early.now ≤ c3w_late.now ∧
      c3w_early.accrued_adjustment = some (-9) ∧
      c3w_late.accrued_adjustment = some (-1) ∧
      ((-9 : ℚ) ≤ -1) := by
  have hera_e : c3w_early.employement_range_adjustment = 0 :=
    era_eq_zero_of_spans _ (by decide)
  have h0 : c3w_end.accrued_adjustment = some 0 :=
    C3_accrual_zero_at_end_and_monotone.1 c3w_end (by decide) (by decide)
  have he : c3w_early.accrued_adjustment = some (-9) := by
    have hdays : diffDays (effectiveEnd c3w_early.user c3w_early.now)
        (effectiveStart c3w_early.user c3w_early.now) = 364 := by decide
    have hd : diffDays (effectiveEnd c3w_early.user c3w_early.now)
        c3w_early.now = 333 := by decide
    simp only [UserAllowance.accrued_adjustment]
    rw [hdays, hd, hera_e]
    norm_num [c3w_early, c3w_user, jsRound]
  have hl : c3w_late.accrued_adjustment = some (-1) := by
    have hera_l : c3w_late.employement_range_adjustment = 0 :=
      era_eq_zero_of_spans _ (by decide)
    have hdays : diffDays (effectiveEnd c3w_late.user c3w_late.now)
        (effectiveStart c3w_late.user c3w_late.now) = 364 := by decide
    have hd : diffDays (effectiveEnd c3w_late.user c3w_late.now)
        c3w_late.now = 30 := by decide
    simp only [UserAllowance.accrued_adjustment]
    rw [hdays, hd, hera_l]
    norm_num [c3w_late, c3w_user, jsRound]
  have hm : (-9 : ℚ) ≤ -1 :=
    C3_accrual_zero_at_end_and_monotone.2 c3w_early c3w_late rfl rfl rfl
      (by decide) (by decide)
      (by rw [hera_e]; norm_num [c3w_early])
      (by decide) (-9) (-1) he hl
  exact ⟨by decide, h0, by decide, he, hl, hm⟩

/-- C4: for nominal allowance 28, start July 1 of the evaluation year, no
end date and now = Dec 31 of that year, employement_range_adjustment is
computed by the 365-denominator rounding formula and equals exactly -14. -/
theorem C4_mid_year_start :
    c4_snapshot.employement_range_adjustment =
      -(c4_snapshot.nominal_allowance -
        (jsRound (c4_snapshot.nominal_allowance *
          (diffDays (effectiveEnd c4_snapshot.user c4_snapshot.now)
            (effectiveStart c4_snapshot.user c4_snapshot.now) : ℚ) / 365) : ℚ)) ∧
    c4_snapshot.employement_range_adjustment = -14 := by
  have hspan : spansFullYear c4_snapshot.user c4_snapshot.now = false := by decide
  have hdiff : diffDays (effectiveEnd c4_snapshot.user c4_snapshot.now)
      (effectiveStart c4_snapshot.user c4_snapshot.now) = 183 := by decide
  have hform : c4_snapshot.employement_range_adjustment =
      -(c4_snapshot.nominal_allowance -
        (jsRound (c4_snapshot.nominal_allowance *
          (diffDays (effectiveEnd c4_snapshot.user c4_snapshot.now)
            (effectiveStart c4_snapshot.user c4_snapshot.now) : ℚ) / 365) : ℚ)) := by
    unfold UserAllowance.employement_range_adjustment
    rw [hspan]
    rfl
  refine ⟨hform, ?_⟩
  rw [hform, hdiff]
  show -((28 : ℚ) - (jsRound ((28 : ℚ) * ((183 : Int) : ℚ) / 365) : ℚ)) = -14
  norm_num [jsRound]

/-- C5: when the start-date year differs from now's year and there is no
end date, or the end date's year is strictly after now's year — the
employment fully spans the evaluation year — employement_range_adjustment
is 0. -/
theorem C5_full_year_no_proration (ua : UserAllowance)
    (h1 : yearOf ua.now ≠ yearOf ua.user.start_date)
    (h2 : ua.user.end_date = none ∨
      ∃ ed, ua.user.end_date = some ed ∧ yearOf ua.now < yearOf ed) :
    ua.employement_range_adjustment = 0 :=
  era_eq_zero_of_spans ua ((spansFullYear_true_iff ua.user ua.now).mpr ⟨h1, h2⟩)

/-- C5 witness: employee employed 2015 through 2030 evaluated in 2017. -/
theorem C5_witness :
    yearOf c5_snapshot.now ≠ yearOf c5_snapshot.user.start_date ∧
      c5_snapshot.employement_range_adjustment = 0 :=
  ⟨by decide, C5_full_year_no_proration c5_snapshot (by decide)
    (Or.inr ⟨utcMs 2030 6 1, rfl, by decide⟩)⟩

/-- C6: for an employee employed the full calendar year (start year before
now's year, and no end date within it: either no end date at all or an end
date in a year after now's) with zero carry-over and manual adjustment in a
non-accrual department, the available figure is nominal allowance minus
days taken; and in general the total figure is nominal + carry_over +
manual_adjustment + employement_range_adjustment. -/
theorem C6_basic_balance (ua : UserAllowance) :
    (yearOf ua.user.start_date < yearOf ua.now →
      (ua.user.end_date = none ∨
        ∃ ed, ua.user.end_date = some ed ∧ yearOf ua.now < yearOf ed) →
      ua.carry_over = 0 → ua.manual_adjustment = 0 →
      ua.is_accrued_allowance = false →
      ua.number_of_days_available_in_allowance =
        some (ua.nominal_allowance - ua.number_of_days_taken_from_allowance)) ∧
    ua.total_number_of_days_in_allowance =
      ua.nominal_allowance + ua.carry_over + ua.manual_adjustment +
        ua.employement_range_adjustment := by
  constructor
  · intro hstart hend hcarry hmanual haccr
    have hera : ua.employement_range_adjustment = 0 :=
      era_eq_zero_of_spans ua ((spansFullYear_true_iff ua.user ua.now).mpr
        ⟨by omega, hend⟩)
    unfold UserAllowance.number_of_days_available_in_allowance
    rw [if_neg (by omega), if_neg (by simp [haccr])]
    unfold UserAllowance.total_number_of_days_in_allowance
    rw [hera, hcarry, hmanual]
    ring_nf
  · rfl

/-- C6 witness: employee employed since 2016, 3 days taken, evaluated mid
2017 with nominal allowance 28 and no adjustments; once with no end date
and once with an end date in 2030, covering both sides of the
full-calendar-year condition. -/
theorem C6_witness :
    (yearOf c6_snapshot.user.start_date < yearOf c6_snapshot.now ∧
      c6_snapshot.number_of_days_available_in_allowance =
        some (c6_snapshot.nominal_allowance -
          c6_snapshot.number_of_days_taken_from_allowance)) ∧
    (yearOf c6_snapshot2.now < yearOf (utcMs 2030 6 1) ∧
      c6_snapshot2.number_of_days_available_in_allowance =
        some (c6_snapshot2.nominal_allowance -
          c6_snapshot2.number_of_days_taken_from_allowance)) :=
  ⟨⟨by decide, (C6_basic_balance c6_snapshot).1 (by decide) (Or.inl rfl)
      rfl rfl rfl⟩,
    ⟨by decide, (C6_basic_balance c6_snapshot2).1 (by decide)
      (Or.inr ⟨utcMs 2030 6 1, rfl, by decide⟩) rfl rfl rfl⟩⟩

/-- C7 counterexample: with forceNow true but now NOT supplied and a year
whose calendar year differs from the current one, the claim prescribes the
start of that year; the source Joi-defaults now to the current UTC instant
before the branch and the branch tests only forceNow, so the snapshot
receives the current instant instead. -/
theorem C7_counterexample :
    c7_args.forceNow = some true ∧ c7_args.now = none ∧
      yearOf (utcMs 2017 7 1) ≠ yearOf c7_current ∧
      (promise_allowance c7_current c7_args).constructed_now = some c7_current ∧
      some c7_current ≠ some (startOfYear (utcMs 2017 7 1)) := by
  refine ⟨rfl, rfl, by decide, ?_, by decide⟩
  decide

/-- C7 amended: the evaluation instant placed in the snapshot is: the
validated now (supplied now, or the current UTC instant when absent)
whenever forceNow is true; otherwise the start of the supplied year when
its calendar year differs from the current UTC year; otherwise left unset
so the constructor defaults it to the current UTC instant. -/
theorem C7_resolved_now (current : Int) (args : PromiseAllowanceArgs) :
    (promise_allowance current args).constructed_now =
      if args.forceNow.getD false = true then some (args.now.getD current)
      else if yearOf (args.year.getD current) ≠ yearOf current then
        some (startOfYear (args.year.getD current))
      else none := by
  unfold promise_allowance
  by_cases hf : args.forceNow.getD false = true
  · rw [if_pos hf, if_pos hf]
  · rw [if_neg hf, if_neg hf]
    by_cases hy : yearOf (args.year.getD current) ≠ yearOf current
    · rw [if_pos hy, if_pos hy]
    · rw [if_neg hy, if_neg hy]

/-- C7 witness: concrete resolution without forceNow, year 2017, current
2023: the snapshot receives the start of 2017. -/
theorem C7_resolved_now_witness :
    (promise_allowance c7_current c7w_args).constructed_now =
      some (startOfYear (utcMs 2017 7 1)) := by
  rw [C7_resolved_now]
  decide

/-- C8: the reload_with_leave_details step is part of the promise chain
if and only if the user's my_leaves is undefined; the three remaining
steps are always present. -/
theorem C8_reload_iff_not_loaded (current : Int) (args : PromiseAllowanceArgs) :
    (Step.reload ∈ (promise_allowance current args).steps ↔
      args.user.my_leaves = none) ∧
    Step.promise_adjustment_and_carry_over ∈ (promise_allowance current args).steps ∧
    Step.calculate_number_of_days_taken ∈ (promise_allowance current args).steps ∧
    Step.construct ∈ (promise_allowance current args).steps := by
  have hsteps : (promise_allowance current args).steps = resolver_steps args.user := by
    unfold promise_allowance
    split
    · rfl
    · split <;> rfl
  rw [hsteps]
  unfold resolver_steps
  cases h : args.user.my_leaves <;> simp [h]

/-- C8 witness: for a user with my_leaves undefined the reload step is in
the chain; for a user with my_leaves loaded it is not. -/
theorem C8_witness :
    Step.reload ∈ (promise_allowance c7_current c8_args).steps ∧
      Step.reload ∉ (promise_allowance c7_current c7w_args).steps :=
  ⟨(C8_reload_iff_not_loaded c7_current c8_args).1.mpr rfl,
    fun hmem => by
      have h := (C8_reload_iff_not_loaded c7_current c7w_args).1.mp hmem
      exact Option.noConfusion h⟩

/-- C9: whenever the constructor argument bag misses user or has any
required numeric field missing or non-numeric, scheme_constructor fails
with a validation error naming one of the offending parameters, and no
UserAllowance instance is produced. -/
theorem C9_validation (current : Int) (a : ConstructorArgs)
    (h : failing_params a ≠ []) :
    ∃ e : ValidationError, scheme_constructor current a = .error e ∧
      e.param ∈ failing_params a := by
  obtain ⟨u, taken, manual, carry, nominal, now⟩ := a
  cases u <;> cases taken <;> cases manual <;> cases carry <;> cases nominal <;>
    first
      | exact absurd rfl h
      | exact ⟨_, rfl, by simp [failing_params, ValidationError.param, JsValue.isNumber]⟩

/-- C9 witness: a bag with days-taken missing and carry_over non-numeric
fails validation with an error naming an offending parameter. -/
theorem C9_witness :
    failing_params c9_bag ≠ [] ∧
      ∃ e : ValidationError, scheme_constructor 0 c9_bag = .error e ∧
        e.param ∈ failing_params c9_bag :=
  ⟨by decide, C9_validation 0 c9_bag (by decide)⟩

/-- C10: when the forceNow branch is not taken and the supplied year's
calendar year differs from the current UTC year, the caller's year moment
is mutated in place to the start of that year (the resolver's startOf call),
and that same mutated object is what the snapshot receives as now. -/
theorem C10_year_mutation (current : Int) (args : PromiseAllowanceArgs) (y : Int)
    (hy : args.year = some y)
    (hf : args.forceNow.getD false = false)
    (hne : yearOf y ≠ yearOf current) :
    (promise_allowance current args).final_year = startOfYear y ∧
      (promise_allowance current args).constructed_now = some (startOfYear y) := by
  unfold promise_allowance
  rw [hy]
  rw [if_neg (by rw [hf]; exact Bool.false_ne_true), if_pos (by simpa using hne)]
  exact ⟨rfl, rfl⟩

/-- C10 witness: with year = July 1 2017 and current in 2023 the caller's
year object ends up at the start of 2017, a different instant than it held
before resolution. -/
theorem C10_witness :
    (promise_allowance c7_current c10_args).final_year =
        startOfYear (utcMs 2017 7 1) ∧
      startOfYear (utcMs 2017 7 1) ≠ utcMs 2017 7 1 :=
  ⟨(C10_year_mutation c7_current c10_args (utcMs 2017 7 1) rfl rfl (by decide)).1,
    by decide⟩

end UserAllowanceModel
